import Mathlib

/-!
Formal model of the cryptographic and storage core of the
securepasswordshare repository.

The embedding is a symbolic (Dolev-Yao style) model of the primitives in
src/server/crypto.ts together with an explicit-state model of the
DatabaseStorage operations of storage.ts (reproduced in src/replit.md):

* PBKDF2 key derivation (crypto.pbkdf2Sync with fixed iteration count and
  output length) is modelled as a free constructor on the password and the
  salt: two derivations agree exactly when password and salt agree.
* AES-256-GCM is modelled as ideal authenticated encryption: a ciphertext
  is a term carrying the key, the IV and the plaintext; the auth tag is a
  term carrying the key, the IV, the additional authenticated data and the
  plaintext; decryption succeeds exactly when the supplied key, IV and AAD
  match the ones the ciphertext and the tag were built from.
* JSON.stringify / JSON.parse: the spec requires canonical serialization,
  so plaintext payloads are carried as structured JSON values (the
  serialized string is identified with the value it canonically denotes).
* bcrypt hashing is modelled as a free constructor on password and salt;
  bcrypt.compare(input, hash) re-hashes the input with the salt embedded in
  the hash and therefore succeeds exactly when the passwords agree.
* base64 strings never contain a colon, so the colon-joined session wire
  string `encrypted:iv:authTag` is modelled by the structure
  SessionEnvelope; the split-and-check prelude of
  decryptMasterPasswordFromSession, which operates on an arbitrary string,
  is modelled separately and faithfully by sessionWireCheck.
* The database is an explicit Store value; NOW() is an explicit Nat
  parameter (milliseconds); every random draw (salt, IV, UUID) is an
  explicit argument of the operation that performs it.
-/

/-- Symbolic PBKDF2 output: `crypto.pbkdf2Sync(password, salt, 100000, 32,
"sha256")`.  Two derived keys are equal exactly when password and salt are
equal. -/
structure DerivedKey where
  password : String
  salt : String
deriving DecidableEq, Repr

/-- src/server/crypto.ts `deriveKey`. -/
def deriveKey (masterPassword : String) (salt : String) : DerivedKey :=
  ⟨masterPassword, salt⟩

mutual
/-- A JSON value, the shape produced by JSON.parse.  Arrays and objects are
mutual inductives so that equality is decidable by structural recursion. -/
inductive Json where
  | null : Json
  | bool : Bool → Json
  | num : Int → Json
  | str : String → Json
  | arr : JsonArray → Json
  | obj : JsonObject → Json
deriving DecidableEq, Repr

/-- A JSON array (list of JSON values). -/
inductive JsonArray where
  | nil : JsonArray
  | cons : Json → JsonArray → JsonArray
deriving DecidableEq, Repr

/-- A JSON object (ordered list of key/value members). -/
inductive JsonObject where
  | nil : JsonObject
  | cons : String → Json → JsonObject → JsonObject
deriving DecidableEq, Repr
end

/-- Member lookup on a JSON object, as JS property access `o.key`. -/
def lookupMember : JsonObject → String → Option Json
  | .nil, _ => none
  | .cons k v rest, key => if k = key then some v else lookupMember rest key

/-- Symbolic AES-256-GCM ciphertext: determined by key, IV and plaintext. -/
structure GcmCiphertext (α : Type) where
  key : DerivedKey
  iv : String
  plaintext : α
deriving DecidableEq, Repr

/-- Symbolic AES-256-GCM authentication tag: determined by key, IV,
additional authenticated data (none when setAAD is not called) and
plaintext. -/
structure GcmTag (α : Type) where
  key : DerivedKey
  iv : String
  aad : Option String
  plaintext : α
deriving DecidableEq, Repr

/-- Ideal AES-256-GCM encryption: createCipheriv + optional setAAD + update
+ final + getAuthTag. -/
def gcmEncrypt {α : Type} (key : DerivedKey) (iv : String) (aad : Option String)
    (plaintext : α) : GcmCiphertext α × GcmTag α :=
  (⟨key, iv, plaintext⟩, ⟨key, iv, aad, plaintext⟩)

/-- Ideal AES-256-GCM decryption: createDecipheriv + optional setAAD +
setAuthTag + update + final.  Returns the plaintext exactly when the
supplied key, IV and AAD match the ones the ciphertext and tag were built
from; any mismatch is a tag-verification failure (none). -/
def gcmDecrypt {α : Type} [DecidableEq α] (key : DerivedKey) (iv : String)
    (aad : Option String) (ct : GcmCiphertext α) (tag : GcmTag α) : Option α :=
  if ct.key = key ∧ ct.iv = iv ∧ tag = ⟨key, iv, aad, ct.plaintext⟩ then
    some ct.plaintext
  else
    none

/-- Spec §7 error taxonomy for the envelope cipher: IntegrityError is a
tag-verification failure, FormatError a shape failure after decryption. -/
inductive CryptoError where
  | integrityError : CryptoError
  | formatError : CryptoError
deriving DecidableEq, Repr

/-- One field of a password entry (shared/schema.ts PasswordField). -/
structure PasswordField where
  name : String
  value : String
  isPassword : Bool
deriving DecidableEq, Repr

/-- Plain entry payload (crypto.ts DecryptedData / schema.ts
PasswordEntryData): a title and a list of fields. -/
structure DecryptedData where
  title : String
  fields : List PasswordField
deriving DecidableEq, Repr

/-- JSON image of a PasswordField under JSON.stringify. -/
def encodeField (f : PasswordField) : Json :=
  Json.obj (.cons "name" (.str f.name)
    (.cons "value" (.str f.value)
      (.cons "isPassword" (.bool f.isPassword) .nil)))

/-- JSON image of a field list under JSON.stringify. -/
def encodeFields : List PasswordField → JsonArray
  | [] => .nil
  | f :: fs => .cons (encodeField f) (encodeFields fs)

/-- JSON image of a DecryptedData payload under JSON.stringify. -/
def encodeEntry (d : DecryptedData) : Json :=
  Json.obj (.cons "title" (.str d.title)
    (.cons "fields" (.arr (encodeFields d.fields)) .nil))

/-- Reading a PasswordField back off a decrypted JSON value; none when the
value is not an object with string name, string value and boolean
isPassword. -/
def decodeField (j : Json) : Option PasswordField :=
  match j with
  | .obj members =>
    match lookupMember members "name", lookupMember members "value",
        lookupMember members "isPassword" with
    | some (.str n), some (.str v), some (.bool b) => some ⟨n, v, b⟩
    | _, _, _ => none
  | _ => none

/-- Reading a field list back off a decrypted JSON array. -/
def decodeFields : JsonArray → Option (List PasswordField)
  | .nil => some []
  | .cons j rest =>
    match decodeField j, decodeFields rest with
    | some f, some fs => some (f :: fs)
    | _, _ => none

/-- Reading a DecryptedData payload back off a decrypted JSON value. -/
def decodeEntry (j : Json) : Option DecryptedData :=
  match j with
  | .obj members =>
    match lookupMember members "title", lookupMember members "fields" with
    | some (.str t), some (.arr fs) =>
      match decodeFields fs with
      | some flds => some ⟨t, flds⟩
      | none => none
    | _, _ => none
  | _ => none

/-- crypto.ts EncryptedData: the persisted envelope of an entry. -/
structure EncryptedData where
  encryptedData : GcmCiphertext Json
  salt : String
  iv : String
  authTag : GcmTag Json
deriving DecidableEq, Repr

/-- src/server/crypto.ts `encryptPasswordEntry` (lines 53-89): fresh salt
and IV (passed here as the explicit random draws), PBKDF2 key from master
password and salt, AES-256-GCM with the salt as AAD over the serialized
payload. -/
def encryptPasswordEntry (data : DecryptedData) (masterPassword salt iv : String) :
    EncryptedData :=
  let key := deriveKey masterPassword salt
  let sealed := gcmEncrypt key iv (some salt) (encodeEntry data)
  ⟨sealed.1, salt, iv, sealed.2⟩

/-- An envelope sealing an arbitrary JSON plaintext under the given secret,
salt and IV: what any writer in possession of the secret can produce, and
the general input shape decryptPasswordEntry must handle. -/
def sealRawJson (j : Json) (masterPassword salt iv : String) : EncryptedData :=
  let key := deriveKey masterPassword salt
  let sealed := gcmEncrypt key iv (some salt) j
  ⟨sealed.1, salt, iv, sealed.2⟩

/-- `typeof v === "string"` on an optional member. -/
def isStrVal : Option Json → Bool
  | some (.str _) => true
  | _ => false

/-- `Array.isArray(v)` on an optional member. -/
def isArrVal : Option Json → Bool
  | some (.arr _) => true
  | _ => false

/-- The "Basic validation" of crypto.ts lines 120-122:
`!data || typeof data.title !== "string" || !Array.isArray(data.fields)`.
True exactly when the value is an object whose `title` member is a string
and whose `fields` member is an array; the elements of `fields` are not
inspected. -/
def validDecrypted : Json → Bool
  | .obj members =>
    isStrVal (lookupMember members "title") &&
    isArrVal (lookupMember members "fields")
  | _ => false

/-- src/server/crypto.ts `decryptPasswordEntry` (lines 94-128): re-derive
the key from the envelope's salt, GCM-decrypt with the salt as AAD
(IntegrityError on tag failure), JSON.parse, then the basic structural
validation (FormatError on failure); on success the parsed value is
returned as-is. -/
def decryptPasswordEntry (encrypted : EncryptedData) (masterPassword : String) :
    Except CryptoError Json :=
  let key := deriveKey masterPassword encrypted.salt
  match gcmDecrypt key encrypted.iv (some encrypted.salt)
      encrypted.encryptedData encrypted.authTag with
  | none => .error .integrityError
  | some json =>
    if validDecrypted json then .ok json else .error .formatError

/-- Symbolic bcrypt hash: bcrypt.hash(password, salt). -/
structure BcryptHash where
  password : String
  salt : String
deriving DecidableEq, Repr

/-- src/server/crypto.ts `hashMasterPassword` (salt is the explicit random
draw of bcrypt.genSalt). -/
def bcryptHash (password salt : String) : BcryptHash :=
  ⟨password, salt⟩

/-- bcrypt.compare(input, storedHash): re-hashes the input with the salt
embedded in the stored hash and compares; true exactly when the passwords
agree. -/
def bcryptCompare (input : String) (stored : BcryptHash) : Bool :=
  stored.password == input

/-- The session-scoped envelope of the master password.  The persisted
string is `encrypted:iv:authTag` with base64 (hence colon-free)
components, so it is in bijection with this structure; the parse of the
raw wire string is modelled by sessionWireCheck below. -/
structure SessionEnvelope where
  encrypted : GcmCiphertext String
  iv : String
  authTag : GcmTag String
deriving DecidableEq, Repr

/-- Return shape of encryptMasterPasswordForSession. -/
structure SessionEncryptionResult where
  encryptedMasterPassword : SessionEnvelope
  sessionSalt : String
deriving DecidableEq, Repr

/-- src/server/crypto.ts `encryptMasterPasswordForSession` (lines 165-198):
fresh sessionSalt and IV (explicit random draws); the session key is
`crypto.pbkdf2Sync(masterPassword, sessionSalt, ...)` — derived from the
MASTER PASSWORD (line 175) — and the master password is GCM-encrypted with
no AAD. -/
def encryptMasterPasswordForSession (masterPassword sessionSalt iv : String) :
    SessionEncryptionResult :=
  let sessionKey := deriveKey masterPassword sessionSalt
  let sealed := gcmEncrypt sessionKey iv none masterPassword
  ⟨⟨sealed.1, iv, sealed.2⟩, sessionSalt⟩

/-- src/server/crypto.ts `decryptMasterPasswordFromSession` (lines
203-233), after the wire string has been split into its three components:
the session key is `crypto.pbkdf2Sync(sessionToken, sessionSalt, ...)` —
derived from the SESSION TOKEN (line 216) — and the ciphertext is
GCM-decrypted with no AAD; a tag failure is an IntegrityError. -/
def decryptMasterPasswordFromSession (envelope : SessionEnvelope)
    (sessionSalt sessionToken : String) : Except CryptoError String :=
  let sessionKey := deriveKey sessionToken sessionSalt
  match gcmDecrypt sessionKey envelope.iv none envelope.encrypted envelope.authTag with
  | none => .error .integrityError
  | some s => .ok s

/-- JS String.prototype.split on a single separator character: every
occurrence splits, empty pieces are kept, the empty string yields one empty
piece. -/
def splitChars (sep : Char) : List Char → List (List Char)
  | [] => [[]]
  | c :: cs =>
    let rest := splitChars sep cs
    if c = sep then [] :: rest
    else
      match rest with
      | x :: xs => (c :: x) :: xs
      | [] => [[c]]

/-- The components of `encryptedMasterPassword.split(":")`. -/
def sessionWireComponents (s : String) : List (List Char) :=
  splitChars ':' s.data

/-- The parse-and-check prelude of decryptMasterPasswordFromSession (lines
210-213): destructure the first three components of split(":") and throw
when any of them is missing (undefined) or empty (both falsy); components
past the third are ignored. -/
def sessionWireCheck (s : String) : Option (List Char × List Char × List Char) :=
  match sessionWireComponents s with
  | e :: i :: t :: _ =>
    if e = [] ∨ i = [] ∨ t = [] then none else some (e, i, t)
  | _ => none

/-- storage.ts master_password row. -/
structure MasterRow where
  id : String
  hashedPassword : BcryptHash
  salt : String
  createdAt : Nat
deriving DecidableEq, Repr

/-- storage.ts sessions row. -/
structure SessionRow where
  id : String
  sessionToken : String
  encryptedMasterPassword : SessionEnvelope
  sessionSalt : String
  createdAt : Nat
  expiresAt : Nat
  isActive : Bool
deriving DecidableEq, Repr

/-- storage.ts password_entries row. -/
structure EntryRow where
  id : String
  encryptedData : GcmCiphertext Json
  salt : String
  iv : String
  authTag : GcmTag Json
  createdAt : Nat
  expiresAt : Nat
  isDeleted : Bool
deriving DecidableEq, Repr

/-- The persistent store behind DatabaseStorage (the legacy users table is
unused by the core and omitted); getMasterPassword selects at most one
row. -/
structure Store where
  master : Option MasterRow
  sessions : List SessionRow
  entries : List EntryRow
deriving DecidableEq, Repr

/-- Spec §7 error taxonomy for the storage operations.  The storage layer
throws plain Errors; they are identified by their message:
"Master password already exists", "Invalid master password - session
creation denied", "Invalid session - access denied" / "Invalid or expired
session", and "Session decryption failed" wrapping the crypto failure. -/
inductive StorageError where
  | alreadyConfigured : StorageError
  | authenticationError : StorageError
  | invalidSession : StorageError
  | sessionDecryptionFailed : CryptoError → StorageError
deriving DecidableEq, Repr

/-- DatabaseStorage.verifyMasterPassword (storage.ts): false when no master
row exists, otherwise bcrypt.compare against the stored hash. -/
def Store.verifyMasterPassword (st : Store) (inputPassword : String) : Bool :=
  match st.master with
  | none => false
  | some m => bcryptCompare inputPassword m.hashedPassword

/-- The row predicate of verifySession / getMasterPasswordFromSession:
sessionToken matches, isActive, and expiresAt > NOW(). -/
def sessionMatches (sessionToken : String) (now : Nat) (s : SessionRow) : Bool :=
  s.sessionToken == sessionToken && s.isActive && decide (now < s.expiresAt)

/-- DatabaseStorage.verifySession (storage.ts lines 232-251): true iff a
row with the given token exists that is active and not yet expired. -/
def Store.verifySession (st : Store) (sessionToken : String) (now : Nat) : Bool :=
  st.sessions.any (sessionMatches sessionToken now)

/-- DatabaseStorage.createSession (storage.ts lines 203-230): verify the
master password (throw AuthenticationError on failure, before any write),
build the token from two fresh UUIDs, encrypt the master password for the
session, insert the row with isActive = true and a 4-hour expiry.  The
random draws (two token UUIDs, row id, session salt, session IV) are
explicit arguments.  On failure the store is returned unchanged. -/
def Store.createSession (st : Store) (masterPassword : String) (now : Nat)
    (uuid1 uuid2 rowId sessionSalt iv : String) :
    Store × Except StorageError (String × Nat) :=
  if st.verifyMasterPassword masterPassword then
    let sessionToken := uuid1 ++ "-" ++ uuid2
    let expiresAt := now + 4 * 60 * 60 * 1000
    let encRes := encryptMasterPasswordForSession masterPassword sessionSalt iv
    let row : SessionRow :=
      ⟨rowId, sessionToken, encRes.encryptedMasterPassword, encRes.sessionSalt,
        now, expiresAt, true⟩
    ({ st with sessions := st.sessions ++ [row] }, .ok (sessionToken, expiresAt))
  else
    (st, .error .authenticationError)

/-- DatabaseStorage.getMasterPasswordFromSession (storage.ts lines
254-277): look up the active unexpired session row and decrypt its stored
master password with the session token and stored session salt. -/
def Store.getMasterPasswordFromSession (st : Store) (sessionToken : String)
    (now : Nat) : Except StorageError String :=
  match st.sessions.find? (sessionMatches sessionToken now) with
  | none => .error .invalidSession
  | some s =>
    match decryptMasterPasswordFromSession s.encryptedMasterPassword
        s.sessionSalt sessionToken with
    | .error e => .error (.sessionDecryptionFailed e)
    | .ok mp => .ok mp

/-- DatabaseStorage.invalidateSession: set isActive := false on every row
with the given token. -/
def Store.invalidateSession (st : Store) (sessionToken : String) : Store :=
  { st with
    sessions := st.sessions.map (fun s =>
      if s.sessionToken == sessionToken then { s with isActive := false } else s) }

/-- DatabaseStorage.cleanupExpiredSessions: hard-delete every session row
with expiresAt <= NOW(); returns the count removed. -/
def Store.cleanupExpiredSessions (st : Store) (now : Nat) : Store × Nat :=
  let remaining := st.sessions.filter (fun s => decide (now < s.expiresAt))
  ({ st with sessions := remaining }, st.sessions.length - remaining.length)

/-- DatabaseStorage.createPasswordEntry (storage.ts lines 300-331): verify
the session, recover the master password from the session, seal the entry
(fresh salt and IV as explicit draws), insert the row with a 24-hour
expiry and isDeleted = false.  On failure the store is returned
unchanged. -/
def Store.createPasswordEntry (st : Store) (entryData : DecryptedData)
    (sessionToken : String) (now : Nat) (rowId salt iv : String) :
    Store × Except StorageError EntryRow :=
  if st.verifySession sessionToken now then
    match st.getMasterPasswordFromSession sessionToken now with
    | .error e => (st, .error e)
    | .ok masterPassword =>
      let expiresAt := now + 24 * 60 * 60 * 1000
      let enc := encryptPasswordEntry entryData masterPassword salt iv
      let row : EntryRow :=
        ⟨rowId, enc.encryptedData, enc.salt, enc.iv, enc.authTag, now, expiresAt, false⟩
      ({ st with entries := st.entries ++ [row] }, .ok row)
  else
    (st, .error .invalidSession)

/-- ORDER BY createdAt DESC, by insertion sort. -/
def insertByCreatedDesc (e : EntryRow) : List EntryRow → List EntryRow
  | [] => [e]
  | x :: xs =>
    if e.createdAt ≤ x.createdAt then x :: insertByCreatedDesc e xs
    else e :: x :: xs

/-- DatabaseStorage.getAllPasswordEntries (storage.ts lines 333-384):
verify the session, recover the master password, select rows with
isDeleted = false and expiresAt > NOW() ordered newest-first, decrypt each
and skip the ones that fail to decrypt. -/
def Store.getAllPasswordEntries (st : Store) (sessionToken : String) (now : Nat) :
    Store × Except StorageError (List Json) :=
  if st.verifySession sessionToken now then
    match st.getMasterPasswordFromSession sessionToken now with
    | .error e => (st, .error e)
    | .ok masterPassword =>
      let active := st.entries.filter (fun e => !e.isDeleted && decide (now < e.expiresAt))
      let ordered := active.foldr insertByCreatedDesc []
      let decrypted := ordered.filterMap (fun e =>
        match decryptPasswordEntry ⟨e.encryptedData, e.salt, e.iv, e.authTag⟩
            masterPassword with
        | .ok j => some j
        | .error _ => none)
      (st, .ok decrypted)
  else
    (st, .error .invalidSession)

/-- DatabaseStorage.deleteAllPasswordEntries (storage.ts lines 386-398):
verify the session, then UPDATE password_entries SET isDeleted = true WHERE
isDeleted = false — with no condition on expiresAt. -/
def Store.deleteAllPasswordEntries (st : Store) (sessionToken : String) (now : Nat) :
    Store × Except StorageError Unit :=
  if st.verifySession sessionToken now then
    ({ st with
        entries := st.entries.map (fun e =>
          if e.isDeleted then e else { e with isDeleted := true }) }, .ok ())
  else
    (st, .error .invalidSession)

/-- DatabaseStorage.deleteExpiredEntries: hard-delete every entry row with
expiresAt <= NOW() regardless of isDeleted; returns the count removed. -/
def Store.deleteExpiredEntries (st : Store) (now : Nat) : Store × Nat :=
  let remaining := st.entries.filter (fun e => decide (now < e.expiresAt))
  ({ st with entries := remaining }, st.entries.length - remaining.length)

/-- storage.ts `setupMasterPassword`: fail when a master row exists,
otherwise hash the password (bcrypt salt as explicit draw) and insert the
single master row. -/
def setupMasterPassword (st : Store) (password : String) (rowId bcryptSalt : String)
    (now : Nat) : Store × Except StorageError MasterRow :=
  match st.master with
  | some _ => (st, .error .alreadyConfigured)
  | none =>
    let hashed := bcryptHash password bcryptSalt
    let row : MasterRow := ⟨rowId, hashed, bcryptSalt, now⟩
    ({ st with master := some row }, .ok row)

/-- The entry payload of the spec's end-to-end scenario. -/
def mailEntry : DecryptedData :=
  ⟨"Mail", [⟨"user", "a@b.com", false⟩]⟩

/-- Scenario: the store after configuring master secret "Sup3rSecret!" on
an empty store. -/
def scenarioStore1 : Store :=
  (setupMasterPassword ⟨none, [], []⟩ "Sup3rSecret!" "masterRowId" "bcryptSaltA" 0).1

/-- Scenario: the login call on scenarioStore1 with the correct secret and
concrete random draws; its token is "uuidA-uuidB". -/
def scenarioLogin : Store × Except StorageError (String × Nat) :=
  scenarioStore1.createSession "Sup3rSecret!" 0 "uuidA" "uuidB" "sessionRowId"
    "sessionSaltA" "sessionIvA"

/-- Scenario: the store holding the session issued by the successful
login. -/
def scenarioStore2 : Store :=
  scenarioLogin.1

/-- A field record lacking a string name, a string value and a boolean
isPassword flag. -/
def c8BadField : Json :=
  Json.obj (.cons "name" (.bool true) .nil)

/-- A decrypted value with a string title and an array fields whose single
element is the malformed record c8BadField. -/
def c8Payload : Json :=
  Json.obj (.cons "title" (.str "t")
    (.cons "fields" (.arr (.cons c8BadField .nil)) .nil))

/-- An envelope sealing c8Payload under secret "S". -/
def c8Envelope : EncryptedData :=
  sealRawJson c8Payload "S" "salt0" "iv0"

/-- A live session row (token "tok", expires at 100) for the soft-delete
counterexample. -/
def c5Session : SessionRow :=
  ⟨"sid", "tok", (encryptMasterPasswordForSession "pw" "ss" "ivS").encryptedMasterPassword,
    "ss", 0, 100, true⟩

/-- An already-expired (expiresAt = 3), not-deleted entry row. -/
def c5Expired : EntryRow :=
  ⟨"eid", (encryptPasswordEntry mailEntry "pw" "es" "eivX").encryptedData, "es", "eivX",
    (encryptPasswordEntry mailEntry "pw" "es" "eivX").authTag, 0, 3, false⟩

/-- Store with one live session and one expired entry. -/
def c5Store : Store :=
  ⟨none, [c5Session], [c5Expired]⟩

/-- Store configured with master secret "correct-pw". -/
def c7Store : Store :=
  ⟨some ⟨"mid", bcryptHash "correct-pw" "bs", "bs", 0⟩, [], []⟩

theorem decodeField_encodeField (f : PasswordField) :
    decodeField (encodeField f) = some f := by
  simp [decodeField, encodeField, lookupMember]

theorem decodeFields_encodeFields (l : List PasswordField) :
    decodeFields (encodeFields l) = some l := by
  induction l with
  | nil => rfl
  | cons f fs ih => simp [encodeFields, decodeFields, decodeField_encodeField, ih]

theorem isStrVal_eq_true_iff (o : Option Json) :
    isStrVal o = true ↔ ∃ t, o = some (.str t) := by
  cases o with
  | none => simp [isStrVal]
  | some j => cases j <;> simp [isStrVal]

theorem isArrVal_eq_true_iff (o : Option Json) :
    isArrVal o = true ↔ ∃ fs, o = some (.arr fs) := by
  cases o with
  | none => simp [isArrVal]
  | some j => cases j <;> simp [isArrVal]

theorem decrypt_sealRawJson (j : Json) (S salt iv : String) :
    decryptPasswordEntry (sealRawJson j S salt iv) S =
      if validDecrypted j then .ok j else .error .formatError := by
  simp [sealRawJson, decryptPasswordEntry, gcmEncrypt, gcmDecrypt, deriveKey]

/-- C3: for every payload P (string title plus list of name/value/isPassword
field records) and every secret S, opening the sealed envelope with the
same secret returns exactly the original payload, for every choice of the
fresh salt and IV:
decryptPasswordEntry(encryptPasswordEntry(P, S), S) = P. -/
theorem entry_roundTrip (P : DecryptedData) (S salt iv : String) :
    decryptPasswordEntry (encryptPasswordEntry P S salt iv) S = .ok (encodeEntry P) ∧
    decodeEntry (encodeEntry P) = some P := by
  constructor
  · simp [encryptPasswordEntry, decryptPasswordEntry, gcmEncrypt, gcmDecrypt,
      deriveKey, validDecrypted, encodeEntry, lookupMember, isStrVal, isArrVal]
  · simp [decodeEntry, encodeEntry, lookupMember, decodeFields_encodeFields]

/-- C4: for every payload P and every pair of distinct secrets S and S2,
opening an envelope sealed under S with S2 fails with IntegrityError
(auth-tag verification failure) and never returns a payload. -/
theorem entry_wrongSecret_integrityError (P : DecryptedData) (S S2 salt iv : String)
    (h : S ≠ S2) :
    decryptPasswordEntry (encryptPasswordEntry P S salt iv) S2 =
      .error .integrityError := by
  simp [encryptPasswordEntry, decryptPasswordEntry, gcmEncrypt, gcmDecrypt,
    deriveKey, h]

theorem entry_wrongSecret_integrityError_witness :
    ("A" : String) ≠ "B" ∧
    decryptPasswordEntry (encryptPasswordEntry mailEntry "A" "s0" "i0") "B" =
      .error .integrityError :=
  ⟨by decide, entry_wrongSecret_integrityError mailEntry "A" "B" "s0" "i0" (by decide)⟩

/-- C9: two encryptions of the same payload under the same secret made with
distinct random draws of the salt and the IV yield envelopes whose salt,
IV and auth tag all differ: identical plaintext never produces identical
envelope components. -/
theorem entry_freshDraws_distinctComponents (P : DecryptedData)
    (S salt1 iv1 salt2 iv2 : String) (hsalt : salt1 ≠ salt2) (hiv : iv1 ≠ iv2) :
    (encryptPasswordEntry P S salt1 iv1).salt ≠ (encryptPasswordEntry P S salt2 iv2).salt ∧
    (encryptPasswordEntry P S salt1 iv1).iv ≠ (encryptPasswordEntry P S salt2 iv2).iv ∧
    (encryptPasswordEntry P S salt1 iv1).authTag ≠
      (encryptPasswordEntry P S salt2 iv2).authTag := by
  refine ⟨?_, ?_, ?_⟩ <;>
    simp [encryptPasswordEntry, gcmEncrypt, deriveKey, hsalt, hiv]

theorem entry_freshDraws_distinctComponents_witness :
    ("s1" : String) ≠ "s2" ∧ ("i1" : String) ≠ "i2" ∧
    ((encryptPasswordEntry mailEntry "S" "s1" "i1").salt ≠
        (encryptPasswordEntry mailEntry "S" "s2" "i2").salt ∧
      (encryptPasswordEntry mailEntry "S" "s1" "i1").iv ≠
        (encryptPasswordEntry mailEntry "S" "s2" "i2").iv ∧
      (encryptPasswordEntry mailEntry "S" "s1" "i1").authTag ≠
        (encryptPasswordEntry mailEntry "S" "s2" "i2").authTag) :=
  ⟨by decide, by decide,
    entry_freshDraws_distinctComponents mailEntry "S" "s1" "i1" "s2" "i2"
      (by decide) (by decide)⟩

/-- C8 counterexample: an envelope under secret "S" whose decrypted value
has a string title and an array fields containing a record lacking a
string name, a string value and a boolean isPassword; decryptPasswordEntry
returns it as-is instead of failing with FormatError, refuting the claim
at this concrete input. -/
theorem malformedField_accepted_counterexample :
    decodeField c8BadField = none ∧
    decryptPasswordEntry c8Envelope "S" = .ok c8Payload ∧
    decryptPasswordEntry c8Envelope "S" ≠ .error .formatError := by
  have h2 : decryptPasswordEntry c8Envelope "S" = .ok c8Payload := rfl
  exact ⟨by decide, h2, by simp [h2]⟩

/-- C8 amended: after tag verification, decryptPasswordEntry checks only
that the decrypted value is an object with a string title member and an
array fields member — it succeeds exactly in that case and fails with
FormatError exactly otherwise; the elements of the fields array are never
inspected, so malformed field records are returned as-is. -/
theorem decrypt_structuralCheck_shallow (j : Json) (S salt iv : String) :
    (decryptPasswordEntry (sealRawJson j S salt iv) S = .ok j ↔
      ∃ members, j = Json.obj members ∧
        (∃ t, lookupMember members "title" = some (.str t)) ∧
        (∃ fs, lookupMember members "fields" = some (.arr fs))) ∧
    (decryptPasswordEntry (sealRawJson j S salt iv) S = .error .formatError ↔
      ¬ ∃ members, j = Json.obj members ∧
        (∃ t, lookupMember members "title" = some (.str t)) ∧
        (∃ fs, lookupMember members "fields" = some (.arr fs))) := by
  have hval : validDecrypted j = true ↔
      ∃ members, j = Json.obj members ∧
        (∃ t, lookupMember members "title" = some (.str t)) ∧
        (∃ fs, lookupMember members "fields" = some (.arr fs)) := by
    cases j <;>
      simp [validDecrypted, isStrVal_eq_true_iff, isArrVal_eq_true_iff]
  rw [decrypt_sealRawJson]
  by_cases hv : validDecrypted j = true
  · simp [hv, ← hval]
  · simp [hv, ← hval]

/-- C1 (code bug): for every secret S and every session token distinct from
S, decrypting the session-stored master password with the issued token
fails with an IntegrityError instead of returning S: the encryption key is
derived from the master password (crypto.ts line 175) while the decryption
key is derived from the session token (crypto.ts line 216), so the GCM tag
never verifies for a token different from the secret. -/
theorem session_roundTrip_fails (S sessionSalt iv token : String) (h : token ≠ S) :
    decryptMasterPasswordFromSession
      (encryptMasterPasswordForSession S sessionSalt iv).encryptedMasterPassword
      (encryptMasterPasswordForSession S sessionSalt iv).sessionSalt token =
      .error .integrityError := by
  simp [encryptMasterPasswordForSession, decryptMasterPasswordFromSession,
    gcmEncrypt, gcmDecrypt, deriveKey, Ne.symm h]

theorem session_roundTrip_fails_witness :
    ("uuidA-uuidB" : String) ≠ "Sup3rSecret!" ∧
    decryptMasterPasswordFromSession
      (encryptMasterPasswordForSession "Sup3rSecret!" "sessionSaltA"
        "sessionIvA").encryptedMasterPassword
      (encryptMasterPasswordForSession "Sup3rSecret!" "sessionSaltA"
        "sessionIvA").sessionSalt
      "uuidA-uuidB" = .error .integrityError :=
  ⟨by decide, session_roundTrip_fails "Sup3rSecret!" "sessionSaltA" "sessionIvA"
    "uuidA-uuidB" (by decide)⟩

/-- C10 counterexample: "a:b:c:d" does not split on ':' into three
non-empty components (its split has four components), yet the format check
of decryptMasterPasswordFromSession accepts it, binding the first three
components and ignoring the fourth, and then proceeds to key derivation —
refuting the claim that every such string is rejected beforehand. -/
theorem wireCheck_fourComponents_counterexample :
    (sessionWireComponents "a:b:c:d").length = 4 ∧
    sessionWireCheck "a:b:c:d" = some (['a'], ['b'], ['c']) := by decide

/-- C10 amended: the format check of decryptMasterPasswordFromSession
accepts a wire string, binding components (e, i, t), exactly when the
split on ':' has at least three components, the first three are e, i and t
and none of them is empty; strings with fewer than three components or an
empty component among the first three are rejected before key derivation,
while components past the third are ignored, not rejected. -/
theorem wireCheck_amended (s : String) (e i t : List Char) :
    sessionWireCheck s = some (e, i, t) ↔
      (∃ rest, sessionWireComponents s = e :: i :: t :: rest) ∧
      e ≠ [] ∧ i ≠ [] ∧ t ≠ [] := by
  unfold sessionWireCheck
  rcases hc : sessionWireComponents s with _ | ⟨e1, _ | ⟨i1, _ | ⟨t1, rest⟩⟩⟩
  · simp
  · simp
  · simp
  · dsimp only
    split_ifs with hcond
    · simp only [false_iff, not_and, reduceCtorEq, false_implies, not_or]
      rintro ⟨r2, heq⟩
      simp only [List.cons.injEq] at heq
      obtain ⟨rfl, rfl, rfl, rfl⟩ := heq
      rcases hcond with hx | hx | hx <;> simp [hx]
    · push_neg at hcond
      simp only [Option.some.injEq, Prod.mk.injEq]
      constructor
      · rintro ⟨rfl, rfl, rfl⟩
        exact ⟨⟨rest, rfl⟩, hcond.1, hcond.2.1, hcond.2.2⟩
      · rintro ⟨⟨r2, heq⟩, he, hi, ht⟩
        simp only [List.cons.injEq] at heq
        exact ⟨heq.1, heq.2.1, heq.2.2.1⟩

/-- C6: verifySession(token) is true exactly when a session row with that
token exists that has isActive = true and expiresAt strictly greater than
the current time; in every other case it is false. -/
theorem verifySession_iff (st : Store) (token : String) (now : Nat) :
    st.verifySession token now = true ↔
      ∃ s ∈ st.sessions, s.sessionToken = token ∧ s.isActive = true ∧
        now < s.expiresAt := by
  simp [Store.verifySession, List.any_eq_true, sessionMatches, Bool.and_eq_true,
    beq_iff_eq, decide_eq_true_eq, and_assoc]

/-- C7: whenever no master secret is configured, or the candidate secret
does not verify against the stored hash, createSession (login) fails with
AuthenticationError and the store — in particular the session table — is
returned unchanged, for every choice of the random draws. -/
theorem createSession_badSecret_noRow (st : Store) (pw : String) (now : Nat)
    (u1 u2 rid ssalt iv : String)
    (h : ∀ m, st.master = some m → bcryptCompare pw m.hashedPassword = false) :
    st.createSession pw now u1 u2 rid ssalt iv = (st, .error .authenticationError) := by
  have hv : st.verifyMasterPassword pw = false := by
    unfold Store.verifyMasterPassword
    cases hm : st.master with
    | none => rfl
    | some m => exact h m hm
  simp [Store.createSession, hv]

theorem createSession_badSecret_noRow_witness :
    (∀ m, c7Store.master = some m → bcryptCompare "wrong-pw" m.hashedPassword = false) ∧
    c7Store.createSession "wrong-pw" 0 "u1" "u2" "rid" "ss" "iv" =
      (c7Store, .error .authenticationError) := by
  have h : ∀ m, c7Store.master = some m →
      bcryptCompare "wrong-pw" m.hashedPassword = false := by
    intro m hm
    have h2 := Option.some.inj hm
    rw [← h2]
    decide
  exact ⟨h, createSession_badSecret_noRow c7Store "wrong-pw" 0 "u1" "u2" "rid" "ss" "iv" h⟩

/-- C5 counterexample: with a valid session and a store whose only entry is
already expired (expiresAt = 3 <= now = 5) and not deleted,
deleteAllPasswordEntries flips that expired row to isDeleted = true — it
does not leave already-expired rows unchanged. -/
theorem softDeleteAll_touchesExpired_counterexample :
    c5Store.verifySession "tok" 5 = true ∧
    c5Expired.isDeleted = false ∧
    c5Expired.expiresAt ≤ 5 ∧
    (c5Store.deleteAllPasswordEntries "tok" 5).1.entries =
      [{ c5Expired with isDeleted := true }] ∧
    ({ c5Expired with isDeleted := true } : EntryRow) ≠ c5Expired := by decide

/-- C5 amended: deleteAllPasswordEntries with a valid session succeeds and
sets isDeleted = true on every entry row currently isDeleted = false,
regardless of its expiresAt — already-expired rows included — while
changing nothing else: already-deleted rows, all other columns, the
sessions and the master record are untouched. -/
theorem softDeleteAll_marksAll (st : Store) (token : String) (now : Nat)
    (h : st.verifySession token now = true) :
    (st.deleteAllPasswordEntries token now).2 = .ok () ∧
    (st.deleteAllPasswordEntries token now).1.master = st.master ∧
    (st.deleteAllPasswordEntries token now).1.sessions = st.sessions ∧
    (st.deleteAllPasswordEntries token now).1.entries =
      st.entries.map (fun e => { e with isDeleted := true }) := by
  refine ⟨?_, ?_, ?_, ?_⟩ <;> simp [Store.deleteAllPasswordEntries, h]
  intro a _ ha
  rcases a with ⟨id, ed, sa, iv, tag, ca, ex, del⟩
  subst ha
  rfl

theorem softDeleteAll_marksAll_witness :
    c5Store.verifySession "tok" 5 = true ∧
    ((c5Store.deleteAllPasswordEntries "tok" 5).2 = .ok () ∧
      (c5Store.deleteAllPasswordEntries "tok" 5).1.master = c5Store.master ∧
      (c5Store.deleteAllPasswordEntries "tok" 5).1.sessions = c5Store.sessions ∧
      (c5Store.deleteAllPasswordEntries "tok" 5).1.entries =
        c5Store.entries.map (fun e => { e with isDeleted := true })) :=
  ⟨by decide, softDeleteAll_marksAll c5Store "tok" 5 (by decide)⟩

/-- C2 (code bug): in the spec scenario — empty store, master secret
"Sup3rSecret!" configured, successful login issuing token "uuidA-uuidB" —
createEntry with the issued token does not succeed: session verification
passes, but recovering the master password from the session fails with a
tag-verification error (the session ciphertext was keyed by the master
password while decryption keys by the token), so createEntry and
listEntries both throw and the store is left unchanged. -/
theorem scenario_createEntry_fails :
    scenarioLogin.2 = .ok ("uuidA-uuidB", 14400000) ∧
    scenarioStore2.verifySession "uuidA-uuidB" 10 = true ∧
    scenarioStore2.createPasswordEntry mailEntry "uuidA-uuidB" 10 "entryRowId"
        "entrySalt" "entryIv" =
      (scenarioStore2, .error (.sessionDecryptionFailed .integrityError)) ∧
    scenarioStore2.getAllPasswordEntries "uuidA-uuidB" 10 =
      (scenarioStore2, .error (.sessionDecryptionFailed .integrityError)) :=
  ⟨rfl, by decide, rfl, rfl⟩
